import Mathlib

/-
  Shallow embedding of the vendor-analytics agent core
  (backend/utils.py, backend/validators.py, backend/prompts.py, backend/agent.py).

  Modelling conventions:
  * Python values flowing through the params dict / memory store are modelled by
    the dynamic type Val (strings, integers, date-range dicts).  Date-range dict
    values are modelled as strings, which is the only value shape the program
    ever stores there.
  * Python dicts are association lists with insertion-order update semantics.
  * datetime.now() is passed in explicitly as a Date argument.
  * Python floats in the confidence formula are modelled exactly over the
    rationals.
  * The five tool executors and the report formatters are external
    collaborators (spec sections 1, 2, 6); process_query is parameterised over
    them and only the status/error envelope they return is modelled.
  * Validators receive the memory store by reference, so they are embedded in
    state-passing style: each returns the (possibly updated) store next to its
    result, mirroring every return site of the Python code.
-/

/-- Dynamic value: a Python str, int, or a date-range dict with string values. -/
inductive Val where
  | s (v : String)
  | i (v : Int)
  | dr (entries : List (String × String))
deriving DecidableEq, Repr

/-- Python truthiness for the value shapes the program uses. -/
def Val.truthy : Val → Bool
  | .s v => !(v == "")
  | .i v => !(v == 0)
  | .dr es => !es.isEmpty

/-- Python truthiness of an optional value (None is falsy). -/
def truthyOpt : Option Val → Bool
  | none => false
  | some v => v.truthy

/-- Association-list lookup, the model of Python `dict.get`. -/
def aget : List (String × Val) → String → Option Val
  | [], _ => none
  | (k0, v0) :: rest, k => if k0 = k then some v0 else aget rest k

/-- Association-list update, the model of Python `dict[k] = v`
    (replace in place, insertion order preserved, new keys appended). -/
def aset : List (String × Val) → String → Val → List (String × Val)
  | [], k, v => [(k, v)]
  | (k0, v0) :: rest, k, v =>
    if k0 = k then (k, v) :: rest else (k0, v0) :: aset rest k v

/-- A parameter dict, as passed through the pipeline. -/
abbrev Params := List (String × Val)

/-- Lookup in a date-range dict (string-valued entries). -/
def lookupStr : List (String × String) → String → Option String
  | [], _ => none
  | (k0, v0) :: rest, k => if k0 = k then some v0 else lookupStr rest k

/- ---------- Dates (model of datetime dates at midnight) ---------- -/

/-- A calendar date. -/
structure Date where
  y : Nat
  m : Nat
  d : Nat
deriving DecidableEq, Repr

/-- Gregorian leap-year rule. -/
def isLeap (y : Nat) : Bool := y % 4 == 0 && (y % 100 != 0 || y % 400 == 0)

/-- Number of days in a month. -/
def daysInMonth (y m : Nat) : Nat :=
  if m = 2 then (if isLeap y then 29 else 28)
  else if m = 4 ∨ m = 6 ∨ m = 9 ∨ m = 11 then 30
  else 31

/-- Days in year y that precede month m. -/
def daysBeforeMonth (y m : Nat) : Nat :=
  (List.range (m - 1)).foldl (fun a i => a + daysInMonth y (i + 1)) 0

/-- Proleptic-Gregorian ordinal of a date (the model of date.toordinal). -/
def toOrd (dt : Date) : Nat :=
  (dt.y - 1) * 365 + (dt.y - 1) / 4 - (dt.y - 1) / 100 + (dt.y - 1) / 400
    + daysBeforeMonth dt.y dt.m + dt.d

/-- The previous calendar day. -/
def prevDay (dt : Date) : Date :=
  if dt.d > 1 then ⟨dt.y, dt.m, dt.d - 1⟩
  else if dt.m > 1 then ⟨dt.y, dt.m - 1, daysInMonth dt.y (dt.m - 1)⟩
  else ⟨dt.y - 1, 12, 31⟩

/-- Date minus n days (model of timedelta subtraction). -/
def subDays (dt : Date) : Nat → Date
  | 0 => dt
  | n + 1 => prevDay (subDays dt n)

/-- Zero-pad a number to a given width. -/
def padZeros (w n : Nat) : String :=
  let s := toString n
  String.mk (List.replicate (w - s.length) '0') ++ s

/-- strftime of a date in the %Y-%m-%d format used throughout the program. -/
def fmtDate (dt : Date) : String :=
  padZeros 4 dt.y ++ "-" ++ padZeros 2 dt.m ++ "-" ++ padZeros 2 dt.d

/-- All characters are ASCII digits. -/
def allDigits (l : List Char) : Bool := l.all fun c => c.isDigit

/-- Numeric value of a digit string (model of Python int()). -/
def digitsVal (l : List Char) : Nat := l.foldl (fun a c => a * 10 + (c.toNat - 48)) 0

/-- Split a character list at every dash. -/
def splitOnDash : List Char → List (List Char)
  | [] => [[]]
  | '-' :: rest => [] :: splitOnDash rest
  | c :: rest =>
    match splitOnDash rest with
    | h :: t => (c :: h) :: t
    | [] => [[c]]

/-- Model of datetime.strptime(s, the %Y-%m-%d format): exactly four digits of
    year, one or two digits of month and day, separated by literal dashes,
    nothing else, with month/day/year in valid calendar range
    (strptime raises ValueError otherwise, which the validator catches). -/
def parseDate (s : String) : Option Date :=
  match splitOnDash s.data with
  | [ys, ms, ds] =>
    if ys.length = 4 ∧ allDigits ys ∧
       1 ≤ ms.length ∧ ms.length ≤ 2 ∧ allDigits ms ∧
       1 ≤ ds.length ∧ ds.length ≤ 2 ∧ allDigits ds then
      let y := digitsVal ys
      let m := digitsVal ms
      let d := digitsVal ds
      if 1 ≤ y ∧ 1 ≤ m ∧ m ≤ 12 ∧ 1 ≤ d ∧ d ≤ daysInMonth y m then
        some ⟨y, m, d⟩
      else none
    else none
  | _ => none

/- ---------- Memory store (utils.SimpleMemory) ---------- -/

/-- The in-memory context store: current values plus an update history. -/
structure SimpleMemory where
  store : List (String × Val)
  history : List (String × Val)
deriving DecidableEq, Repr

/-- The store a fresh agent starts with. -/
def SimpleMemory.empty : SimpleMemory := { store := [], history := [] }

/-- set_memory: store a value, append to history, keep the last 10 entries. -/
def SimpleMemory.set_memory (m : SimpleMemory) (key : String) (value : Val) : SimpleMemory :=
  let h := m.history ++ [(key, value)]
  { store := aset m.store key value,
    history := if h.length > 10 then h.drop (h.length - 10) else h }

/-- get_memory: retrieve a value or none. -/
def SimpleMemory.get_memory (m : SimpleMemory) (key : String) : Option Val :=
  aget m.store key

/-- clear_memory: reset store and history. -/
def SimpleMemory.clear_memory (_m : SimpleMemory) : SimpleMemory := SimpleMemory.empty

/-- get_last_vendor_id accessor. -/
def SimpleMemory.get_last_vendor_id (m : SimpleMemory) : Option Val :=
  m.get_memory "vendorId"

/-- set_last_vendor_id accessor. -/
def SimpleMemory.set_last_vendor_id (m : SimpleMemory) (v : Val) : SimpleMemory :=
  m.set_memory "vendorId" v

/-- get_last_date_range accessor. -/
def SimpleMemory.get_last_date_range (m : SimpleMemory) : Option Val :=
  m.get_memory "dateRange"

/-- set_last_date_range accessor. -/
def SimpleMemory.set_last_date_range (m : SimpleMemory) (v : Val) : SimpleMemory :=
  m.set_memory "dateRange" v

/-- get_last_n_weeks accessor. -/
def SimpleMemory.get_last_n_weeks (m : SimpleMemory) : Option Val :=
  m.get_memory "lastNWeeks"

/-- set_last_n_weeks accessor. -/
def SimpleMemory.set_last_n_weeks (m : SimpleMemory) (v : Val) : SimpleMemory :=
  m.set_memory "lastNWeeks" v

/-- The observability summary returned by get_memory_summary. -/
structure MemorySummary where
  vendorId : Option Val
  dateRange : Option Val
  lastNWeeks : Option Val
  history_count : Nat
deriving DecidableEq, Repr

/-- get_memory_summary: current values plus history length. -/
def SimpleMemory.get_memory_summary (m : SimpleMemory) : MemorySummary :=
  { vendorId := m.get_last_vendor_id,
    dateRange := m.get_last_date_range,
    lastNWeeks := m.get_last_n_weeks,
    history_count := m.history.length }

/- ---------- Validators (validators.py) ---------- -/

/-- Result dict returned by every validator.  Invalid results carry the error
    message; the value and from_memory fields default for branches whose
    Python dict omits those keys (they are never read there). -/
structure VResult where
  valid : Bool
  error : String := ""
  value : Val := Val.s ""
  from_memory : Bool := false
deriving DecidableEq, Repr

/-- validate_vendor_id: memory fallback when absent, then present, string,
    VENDOR_ prefixed, in that order.  The store travels alongside the result. -/
def validate_vendor_id (vendor_id : Option Val) (memory : Option SimpleMemory) :
    VResult × Option SimpleMemory :=
  let (vid, from_memory) :=
    match truthyOpt vendor_id, memory with
    | false, some mem =>
      let v := mem.get_last_vendor_id
      (v, truthyOpt v)
    | _, _ => (vendor_id, false)
  if truthyOpt vid = false then
    ({ valid := false,
       error := "VendorId is required. Please specify a vendor or run a query with a vendor first." },
     memory)
  else
    match vid with
    | some (Val.s str) =>
      if "VENDOR_".data.isPrefixOf str.data then
        ({ valid := true, value := Val.s str, from_memory := from_memory }, memory)
      else
        ({ valid := false,
           error := "VendorId '" ++ str ++ "' has invalid format. Expected format: VENDOR_X" },
         memory)
    | _ => ({ valid := false, error := "VendorId must be a string" }, memory)

/-- validate_date_range: memory fallback, then present, dict, keys, parse,
    order, 365-day span, in that order. -/
def validate_date_range (date_range : Option Val) (memory : Option SimpleMemory) :
    VResult × Option SimpleMemory :=
  let (dr0, from_memory) :=
    match truthyOpt date_range, memory with
    | false, some mem =>
      let v := mem.get_last_date_range
      (v, truthyOpt v)
    | _, _ => (date_range, false)
  if truthyOpt dr0 = false then
    ({ valid := false,
       error := "DateRange is required. Please specify a date range (e.g., 'in 2024', 'last month')." },
     memory)
  else
    match dr0 with
    | some (Val.dr entries) =>
      match lookupStr entries "start", lookupStr entries "end" with
      | some st, some en =>
        match parseDate st, parseDate en with
        | some sd, some ed =>
          if toOrd ed < toOrd sd then
            ({ valid := false, error := "End date must be after start date" }, memory)
          else if toOrd ed - toOrd sd > 365 then
            ({ valid := false,
               error := "Please specify a date range up to 1 year only. Your range spans "
                 ++ toString (toOrd ed - toOrd sd) ++ " days." },
             memory)
          else
            ({ valid := true, value := Val.dr entries, from_memory := from_memory }, memory)
        | _, _ =>
          ({ valid := false, error := "Dates must be in YYYY-MM-DD format" }, memory)
      | _, _ =>
        ({ valid := false, error := "DateRange must contain 'start' and 'end' keys" }, memory)
    | _ =>
      ({ valid := false, error := "DateRange must be a dictionary with 'start' and 'end'" }, memory)

/-- validate_limit: no memory fallback; present, integer, positive, at most 100. -/
def validate_limit (limit : Option Val) (memory : Option SimpleMemory) :
    VResult × Option SimpleMemory :=
  match limit with
  | none =>
    ({ valid := false,
       error := "Limit is required. Please specify how many results you want (e.g., 'top 5')." },
     memory)
  | some (Val.i n) =>
    if n ≤ 0 then ({ valid := false, error := "Limit must be greater than 0" }, memory)
    else if n > 100 then
      ({ valid := false, error := "Limit cannot exceed 100. Please request 100 or fewer results." },
       memory)
    else ({ valid := true, value := Val.i n }, memory)
  | some _ => ({ valid := false, error := "Limit must be an integer" }, memory)

/-- validate_last_n_weeks: memory fallback when the argument is None, then
    present, integer, positive, at most 52. -/
def validate_last_n_weeks (weeks : Option Val) (memory : Option SimpleMemory) :
    VResult × Option SimpleMemory :=
  let (w, from_memory) :=
    match weeks, memory with
    | none, some mem =>
      let v := mem.get_memory "lastNWeeks"
      (v, truthyOpt v)
    | _, _ => (weeks, false)
  match w with
  | none =>
    ({ valid := false,
       error := "LastNWeeks is required. Please specify number of weeks (e.g., 'last 8 weeks')." },
     memory)
  | some (Val.i n) =>
    if n ≤ 0 then ({ valid := false, error := "LastNWeeks must be greater than 0" }, memory)
    else if n > 52 then
      ({ valid := false, error := "LastNWeeks cannot exceed 52 (1 year). Please request 52 or fewer weeks." },
       memory)
    else ({ valid := true, value := Val.i n, from_memory := from_memory }, memory)
  | some _ => ({ valid := false, error := "LastNWeeks must be an integer" }, memory)

/- ---------- Intent resolver (prompts.py) ---------- -/

/-- One group of the mock pattern table. -/
structure PatternGroup where
  patterns : List String
  tool : String
  priority : Nat
deriving DecidableEq, Repr

/-- The MOCK_PATTERNS table, transcribed verbatim. -/
def MOCK_PATTERNS : List PatternGroup :=
  [ { patterns :=
        [ "show vendor summary", "vendor summary for", "get summary for vendor",
          "summary of vendor", "vendor performance for", "how is vendor",
          "vendor stats", "vendor metrics", "performance of vendor", "show me vendor" ],
      tool := "get_vendor_summary", priority := 2 },
    { patterns :=
        [ "compare vendor", "compare vendors", "vendor comparison",
          "difference between vendor", "vs vendor", "versus vendor",
          "vendor 1 vs vendor 2", "vendor 1 and vendor 2", "how do vendor",
          "which is better" ],
      tool := "compare_vendors", priority := 3 },
    { patterns :=
        [ "vendor trend", "trend for vendor", "weekly trend", "show me trend",
          "performance trend", "show trend", "now show trend", "trend over time",
          "historical performance", "week by week" ],
      tool := "get_vendor_trend", priority := 2 },
    { patterns :=
        [ "top vendor", "top performing vendor", "best vendor", "top 3 vendor",
          "top 5 vendor", "top 10 vendor", "highest performing", "best performing",
          "rank vendor", "leading vendor", "who are the best" ],
      tool := "vendor_top_performers", priority := 3 },
    { patterns :=
        [ "failed submission", "rejection", "failed candidate",
          "why are candidates rejected", "rejection reason", "why rejected",
          "failure reason", "what went wrong", "rejection analysis", "failed profiles" ],
      tool := "vendor_failed_submissions", priority := 3 } ]

/-- Lower-casing of a query (Python str.lower on the ASCII range used here). -/
def lowerStr (s : String) : String := String.mk (s.data.map Char.toLower)

/-- Character-list containment scan: the needle occurs at some position. -/
def subList (needle : List Char) : List Char → Bool
  | [] => needle.isEmpty
  | c :: rest => needle.isPrefixOf (c :: rest) || subList needle rest

/-- Python substring containment: needle in hay. -/
def containsSub (needle hay : String) : Bool := subList needle.data hay.data

/-- A scored intent candidate. -/
structure Candidate where
  tool : String
  pattern : String
  confidence : ℚ
deriving DecidableEq, Repr

/-- Confidence of one pattern match: min(0.7 + len(pattern)/len(query) + priority*0.1, 0.95),
    computed exactly over the rationals. -/
def confidenceOf (pattern : String) (queryLower : String) (priority : Nat) : ℚ :=
  min (7/10 + (pattern.length : ℚ) / (queryLower.length : ℚ) + (priority : ℚ) * (1/10)) (19/20)

/-- All candidates collected by the pattern scan, in table order. -/
def candidatesFor (queryLower : String) : List Candidate :=
  MOCK_PATTERNS.flatMap fun g =>
    g.patterns.filterMap fun p =>
      if containsSub p queryLower then
        some { tool := g.tool, pattern := p, confidence := confidenceOf p queryLower g.priority }
      else none

/-- Python max(matches, key) over a nonempty list: keeps the current best and
    replaces it only on a strictly larger confidence, so the first maximum wins. -/
def pickBest (c : Candidate) (cs : List Candidate) : Candidate :=
  cs.foldl (fun best x => if best.confidence < x.confidence then x else best) c

/- ---------- Parameter extraction (prompts.extract_params_from_query) ---------- -/

/-- Whitespace class of the regexes (ASCII range). -/
def isSpaceChar (c : Char) : Bool :=
  c = ' ' ∨ c = '\t' ∨ c = '\n' ∨ c = '\r' ∨ c = '\x0b' ∨ c = '\x0c'

/-- Leading run of digits. -/
def takeDigits (l : List Char) : List Char := l.takeWhile Char.isDigit

/-- Try the regex vendor[_\s]?(\d+) at the head of the list; on success return
    the captured digits and the characters after the match. -/
def matchVendorAt (l : List Char) : Option (List Char × List Char) :=
  match l with
  | 'v' :: 'e' :: 'n' :: 'd' :: 'o' :: 'r' :: rest =>
    match rest with
    | c :: rest2 =>
      if (c = '_' ∨ isSpaceChar c) ∧ (rest2.head?.any Char.isDigit) then
        some (takeDigits rest2, rest2.dropWhile Char.isDigit)
      else if c.isDigit then
        some (takeDigits rest, rest.dropWhile Char.isDigit)
      else none
    | [] => none
  | _ => none

/-- re.search for vendor[_\s]?(\d+): first match in a left-to-right scan. -/
def findVendorNum : List Char → Option (List Char)
  | [] => none
  | c :: rest =>
    match matchVendorAt (c :: rest) with
    | some (ds, _) => some ds
    | none => findVendorNum rest

/-- Fuelled scan for re.findall of vendor[_\s]?(\d+): non-overlapping matches,
    resuming after each match.  The fuel is the list length, which suffices
    because every step consumes at least one character. -/
def findAllVendorAux : Nat → List Char → List (List Char)
  | 0, _ => []
  | _ + 1, [] => []
  | fuel + 1, c :: rest =>
    match matchVendorAt (c :: rest) with
    | some (ds, after) => ds :: findAllVendorAux fuel after
    | none => findAllVendorAux fuel rest

/-- re.findall for vendor[_\s]?(\d+). -/
def findAllVendorNums (l : List Char) : List (List Char) := findAllVendorAux l.length l

/-- Try the regex top\s+(\d+) at the head of the list. -/
def matchTopAt (l : List Char) : Option (List Char) :=
  match l with
  | 't' :: 'o' :: 'p' :: rest =>
    if (rest.takeWhile isSpaceChar) ≠ [] ∧ ((rest.dropWhile isSpaceChar).head?.any Char.isDigit) then
      some (takeDigits (rest.dropWhile isSpaceChar))
    else none
  | _ => none

/-- re.search for top\s+(\d+). -/
def findTopNum : List Char → Option (List Char)
  | [] => none
  | c :: rest =>
    match matchTopAt (c :: rest) with
    | some ds => some ds
    | none => findTopNum rest

/-- Try the regex (\d+)\s+weeks? at the head of the list. -/
def matchWeeksAt (l : List Char) : Option (List Char) :=
  if l.head?.any Char.isDigit then
    let ds := takeDigits l
    let r1 := l.dropWhile Char.isDigit
    let r2 := r1.dropWhile isSpaceChar
    if (r1.takeWhile isSpaceChar) ≠ [] ∧ ['w', 'e', 'e', 'k'].isPrefixOf r2 then
      some ds
    else none
  else none

/-- re.search for (\d+)\s+weeks?. -/
def findWeeksNum : List Char → Option (List Char)
  | [] => none
  | c :: rest =>
    match matchWeeksAt (c :: rest) with
    | some ds => some ds
    | none => findWeeksNum rest

/-- Vendor-id block of extract_params_from_query. -/
def extractVendorStage (queryLower : List Char) (params : Params) : Params :=
  match findVendorNum queryLower with
  | some ds => aset params "vendorId" (Val.s ("VENDOR_" ++ String.mk ds))
  | none => params

/-- Comparison block of extract_params_from_query. -/
def extractCompareStage (tool_name : String) (queryLower : List Char) (params : Params) :
    Params :=
  if tool_name = "compare_vendors" then
    match findAllVendorNums queryLower with
    | a :: b :: _ =>
      aset (aset params "vendorA" (Val.s ("VENDOR_" ++ String.mk a)))
        "vendorB" (Val.s ("VENDOR_" ++ String.mk b))
    | _ =>
      aset (aset params "vendorA" (Val.s "VENDOR_1")) "vendorB" (Val.s "VENDOR_2")
  else params

/-- Limit block of extract_params_from_query. -/
def extractLimitStage (tool_name : String) (queryLower : List Char) (params : Params) :
    Params :=
  match findTopNum queryLower with
  | some ds => aset params "limit" (Val.i (digitsVal ds))
  | none =>
    if tool_name = "vendor_top_performers" then aset params "limit" (Val.i 3) else params

/-- Weeks block of extract_params_from_query. -/
def extractWeeksStage (tool_name : String) (queryLower : List Char) (params : Params) :
    Params :=
  match findWeeksNum queryLower with
  | some ds => aset params "lastNWeeks" (Val.i (digitsVal ds))
  | none =>
    if tool_name = "get_vendor_trend" then aset params "lastNWeeks" (Val.i 8) else params

/-- Date-range block of extract_params_from_query (a range is set on every path). -/
def extractDateStage (now : Date) (query queryLower : String) (params : Params) : Params :=
  if containsSub "last month" queryLower then
    aset params "dateRange" (Val.dr [("start", fmtDate (subDays now 30)), ("end", fmtDate now)])
  else if containsSub "last week" queryLower then
    aset params "dateRange" (Val.dr [("start", fmtDate (subDays now 7)), ("end", fmtDate now)])
  else if containsSub "this year" queryLower ∨ containsSub "2024" query then
    aset params "dateRange" (Val.dr [("start", "2024-01-01"), ("end", "2024-12-31")])
  else
    aset params "dateRange" (Val.dr [("start", fmtDate (subDays now 90)), ("end", fmtDate now)])

/-- Default-vendorId block of extract_params_from_query. -/
def extractVendorDefaultStage (tool_name : String) (params : Params) : Params :=
  if (tool_name = "get_vendor_summary" ∨ tool_name = "get_vendor_trend")
      ∧ aget params "vendorId" = none then
    aset params "vendorId" (Val.s "VENDOR_1")
  else params

/-- extract_params_from_query: the source's blocks applied in order, with
    datetime.now() passed in as `now`. -/
def extract_params_from_query (now : Date) (query : String) (tool_name : String) : Params :=
  let queryLower := lowerStr query
  extractVendorDefaultStage tool_name
    (extractDateStage now query queryLower
      (extractWeeksStage tool_name queryLower.data
        (extractLimitStage tool_name queryLower.data
          (extractCompareStage tool_name queryLower.data
            (extractVendorStage queryLower.data [])))))

/-- The record returned by mock_llm_parse. -/
structure Parsed where
  tool : String
  params : Params
  confidence : ℚ
  matched_pattern : String
deriving DecidableEq, Repr

/-- mock_llm_parse: scan the pattern table, keep the best-scoring candidate,
    fall back to get_vendor_summary with confidence 0.2 when nothing matches. -/
def mock_llm_parse (now : Date) (query : String) : Parsed :=
  let queryLower := lowerStr query
  match candidatesFor queryLower with
  | c :: cs =>
    let best := pickBest c cs
    { tool := best.tool,
      params := extract_params_from_query now query best.tool,
      confidence := best.confidence,
      matched_pattern := best.pattern }
  | [] =>
    { tool := "get_vendor_summary", params := [], confidence := 1/5, matched_pattern := "fallback" }

/- ---------- Parameter pipeline and agent (agent.py) ---------- -/

/-- Outcome of the pipeline, {"status": "success"} or the error result. -/
inductive PipeResult where
  | success
  | error (msg : String)
deriving DecidableEq, Repr

/-- State of one pipeline run: updated params, outcome, the decision's
    memory_fields_used list, and the memory store threaded through. -/
structure PipeOut where
  params : Params
  result : PipeResult
  mfu : List String
  memory : SimpleMemory
deriving DecidableEq, Repr

/-- The get_vendor_summary branch: vendorId then dateRange. -/
def validateSummaryParams (params : Params) (mfu : List String) (memory : SimpleMemory) : PipeOut :=
  let vv := validate_vendor_id (aget params "vendorId") (some memory)
  let memory := vv.2.getD memory
  if vv.1.valid = false then
    { params := params, result := .error vv.1.error, mfu := mfu, memory := memory }
  else
    let mfu := if vv.1.from_memory then mfu ++ ["vendorId"] else mfu
    let params := aset params "vendorId" vv.1.value
    let rv := validate_date_range (aget params "dateRange") (some memory)
    let memory := rv.2.getD memory
    if rv.1.valid = false then
      { params := params, result := .error rv.1.error, mfu := mfu, memory := memory }
    else
      let mfu := if rv.1.from_memory then mfu ++ ["dateRange"] else mfu
      let params := aset params "dateRange" rv.1.value
      { params := params, result := .success, mfu := mfu, memory := memory }

/-- The compare_vendors branch: vendorA with memory, vendorB with None
    (the second vendor never consults memory), then dateRange.  Note that the
    source never records vendorA in memory_fields_used. -/
def validateCompareParams (params : Params) (mfu : List String) (memory : SimpleMemory) : PipeOut :=
  let va := validate_vendor_id (aget params "vendorA") (some memory)
  let memory := va.2.getD memory
  if va.1.valid = false then
    { params := params, result := .error ("VendorA: " ++ va.1.error), mfu := mfu, memory := memory }
  else
    let params := aset params "vendorA" va.1.value
    let vb := validate_vendor_id (aget params "vendorB") none
    if vb.1.valid = false then
      { params := params, result := .error ("VendorB: " ++ vb.1.error), mfu := mfu, memory := memory }
    else
      let params := aset params "vendorB" vb.1.value
      let rv := validate_date_range (aget params "dateRange") (some memory)
      let memory := rv.2.getD memory
      if rv.1.valid = false then
        { params := params, result := .error rv.1.error, mfu := mfu, memory := memory }
      else
        let mfu := if rv.1.from_memory then mfu ++ ["dateRange"] else mfu
        let params := aset params "dateRange" rv.1.value
        { params := params, result := .success, mfu := mfu, memory := memory }

/-- The get_vendor_trend branch: vendorId then lastNWeeks. -/
def validateTrendParams (params : Params) (mfu : List String) (memory : SimpleMemory) : PipeOut :=
  let vv := validate_vendor_id (aget params "vendorId") (some memory)
  let memory := vv.2.getD memory
  if vv.1.valid = false then
    { params := params, result := .error vv.1.error, mfu := mfu, memory := memory }
  else
    let mfu := if vv.1.from_memory then mfu ++ ["vendorId"] else mfu
    let params := aset params "vendorId" vv.1.value
    let wv := validate_last_n_weeks (aget params "lastNWeeks") (some memory)
    let memory := wv.2.getD memory
    if wv.1.valid = false then
      { params := params, result := .error wv.1.error, mfu := mfu, memory := memory }
    else
      let mfu := if wv.1.from_memory then mfu ++ ["lastNWeeks"] else mfu
      let params := aset params "lastNWeeks" wv.1.value
      { params := params, result := .success, mfu := mfu, memory := memory }

/-- The vendor_top_performers branch: limit then dateRange. -/
def validateTopParams (params : Params) (mfu : List String) (memory : SimpleMemory) : PipeOut :=
  let lv := validate_limit (aget params "limit") (some memory)
  let memory := lv.2.getD memory
  if lv.1.valid = false then
    { params := params, result := .error lv.1.error, mfu := mfu, memory := memory }
  else
    let params := aset params "limit" lv.1.value
    let rv := validate_date_range (aget params "dateRange") (some memory)
    let memory := rv.2.getD memory
    if rv.1.valid = false then
      { params := params, result := .error rv.1.error, mfu := mfu, memory := memory }
    else
      let mfu := if rv.1.from_memory then mfu ++ ["dateRange"] else mfu
      let params := aset params "dateRange" rv.1.value
      { params := params, result := .success, mfu := mfu, memory := memory }

/-- The vendor_failed_submissions branch: dateRange only. -/
def validateFailedParams (params : Params) (mfu : List String) (memory : SimpleMemory) : PipeOut :=
  let rv := validate_date_range (aget params "dateRange") (some memory)
  let memory := rv.2.getD memory
  if rv.1.valid = false then
    { params := params, result := .error rv.1.error, mfu := mfu, memory := memory }
  else
    let mfu := if rv.1.from_memory then mfu ++ ["dateRange"] else mfu
    let params := aset params "dateRange" rv.1.value
    { params := params, result := .success, mfu := mfu, memory := memory }

/-- _apply_memory_and_validate: the per-tool elif chain. -/
def apply_memory_and_validate (params : Params) (tool_name : String)
    (mfu : List String) (memory : SimpleMemory) : PipeOut :=
  if tool_name = "get_vendor_summary" then validateSummaryParams params mfu memory
  else if tool_name = "compare_vendors" then validateCompareParams params mfu memory
  else if tool_name = "get_vendor_trend" then validateTrendParams params mfu memory
  else if tool_name = "vendor_top_performers" then validateTopParams params mfu memory
  else if tool_name = "vendor_failed_submissions" then validateFailedParams params mfu memory
  else { params := params, result := .success, mfu := mfu, memory := memory }

/-- _update_memory: store each of the three context keys when present and truthy. -/
def update_memory (memory : SimpleMemory) (params : Params) : SimpleMemory :=
  let memory :=
    match aget params "vendorId" with
    | some v => if v.truthy then memory.set_last_vendor_id v else memory
    | none => memory
  let memory :=
    match aget params "dateRange" with
    | some v => if v.truthy then memory.set_last_date_range v else memory
    | none => memory
  match aget params "lastNWeeks" with
  | some v => if v.truthy then memory.set_last_n_weeks v else memory
  | none => memory

/-- Status/error envelope a tool executor returns; the data payload is opaque
    to the pipeline (external collaborator, spec section 6) and modelled as a
    string handed to the formatter. -/
structure ExecResult where
  status : String
  error : String := ""
  data : String := ""
deriving DecidableEq, Repr

/-- The decision record built during one query turn. -/
structure Decision where
  tool_selected : String
  confidence : ℚ
  matched_pattern : String
  memory_fields_used : List String
deriving DecidableEq, Repr

/-- The response envelope of process_query. -/
structure AgentResponse where
  query : String
  tool : String
  params : Params
  result : ExecResult
  formatted : String
  decision : Decision
  memory_used : List String
deriving DecidableEq, Repr

/-- _format_result: error marker line for failed executions; success rendering
    is delegated to the external formatters. -/
def format_result (formatData : String → ExecResult → String)
    (tool_name : String) (result : ExecResult) : String :=
  if result.status = "error" then "❌ Error: " ++ result.error
  else formatData tool_name result

/-- Mock executor envelope (_execute_mock_tool): success for the five known
    tools, an error status otherwise; payloads are external data. -/
def mock_executor (tool_name : String) (_params : Params) : ExecResult :=
  if tool_name = "get_vendor_summary" ∨ tool_name = "compare_vendors"
      ∨ tool_name = "get_vendor_trend" ∨ tool_name = "vendor_top_performers"
      ∨ tool_name = "vendor_failed_submissions" then
    { status := "success" }
  else
    { status := "error", error := "Unknown tool: " ++ tool_name }

/-- process_query: parse, validate with memory, short-circuit on validation
    error, otherwise execute the tool, update memory, and format.  The tool
    executor and the success formatter are passed in; datetime.now() is `now`. -/
def process_query (now : Date) (ex : String → Params → ExecResult)
    (formatData : String → ExecResult → String)
    (query : String) (memory : SimpleMemory) : AgentResponse × SimpleMemory :=
  let parsed := mock_llm_parse now query
  let tool_name := parsed.tool
  let po := apply_memory_and_validate parsed.params tool_name [] memory
  let decision : Decision :=
    { tool_selected := tool_name, confidence := parsed.confidence,
      matched_pattern := parsed.matched_pattern, memory_fields_used := po.mfu }
  match po.result with
  | .error msg =>
    ({ query := query, tool := tool_name, params := po.params,
       result := { status := "error", error := msg },
       formatted := "❌ " ++ msg,
       decision := decision, memory_used := po.mfu }, po.memory)
  | .success =>
    let result := ex tool_name po.params
    let memory2 := update_memory po.memory po.params
    ({ query := query, tool := tool_name, params := po.params, result := result,
       formatted := format_result formatData tool_name result,
       decision := decision, memory_used := po.mfu }, memory2)

/-- An executor that always reports an execution error, the envelope
    _execute_tool produces when the external store fails (agent.py catch). -/
def errExec : String → Params → ExecResult :=
  fun _ _ => { status := "error", error := "Tool execution failed: connection error" }

/-- A trivial success formatter (success rendering is external). -/
def nullFmt : String → ExecResult → String := fun _ _ => ""

/-- A fixed value for datetime.now() used in concrete scenarios. -/
def d0 : Date := { y := 2024, m := 6, d := 15 }

/-- Folding set calls over a list of entries. -/
def setFold (m : SimpleMemory) (kvs : List (String × Val)) : SimpleMemory :=
  kvs.foldl (fun acc kv => acc.set_memory kv.1 kv.2) m

/-- A store holding VENDOR_3 from a previous successful query. -/
def m3 : SimpleMemory := SimpleMemory.empty.set_memory "vendorId" (Val.s "VENDOR_3")

/-- A store holding both a vendor and a date range from previous queries. -/
def m9 : SimpleMemory :=
  (SimpleMemory.empty.set_memory "vendorId" (Val.s "VENDOR_3")).set_memory
    "dateRange" (Val.dr [("start", "2024-01-01"), ("end", "2024-03-01")])

/-- Comparison params with vendorA absent, as handed to the pipeline directly. -/
def cmpParams : Params :=
  [("vendorB", Val.s "VENDOR_2"),
   ("dateRange", Val.dr [("start", "2024-01-01"), ("end", "2024-03-01")])]

/- ---------- Helper lemmas ---------- -/

/-- The vendor-id validator returns the store it was handed. -/
theorem validate_vendor_id_mem (v : Option Val) (om : Option SimpleMemory) :
    (validate_vendor_id v om).2 = om := by
  unfold validate_vendor_id
  rcases om with _ | m <;> cases h : truthyOpt v <;> simp only [h] <;>
    (repeat' split) <;> rfl

/-- The date-range validator returns the store it was handed. -/
theorem validate_date_range_mem (v : Option Val) (om : Option SimpleMemory) :
    (validate_date_range v om).2 = om := by
  unfold validate_date_range
  rcases om with _ | m <;> cases h : truthyOpt v <;> simp only [h] <;>
    (repeat' split) <;> rfl

/-- The limit validator returns the store it was handed. -/
theorem validate_limit_mem (v : Option Val) (om : Option SimpleMemory) :
    (validate_limit v om).2 = om := by
  unfold validate_limit
  (repeat' split) <;> rfl

/-- The weeks validator returns the store it was handed. -/
theorem validate_last_n_weeks_mem (v : Option Val) (om : Option SimpleMemory) :
    (validate_last_n_weeks v om).2 = om := by
  unfold validate_last_n_weeks
  rcases om with _ | m <;> rcases v with _ | w <;> simp only [] <;>
    (repeat' split) <;> rfl

/-- The summary branch leaves the store unchanged. -/
theorem validateSummaryParams_mem (p : Params) (mfu : List String) (m : SimpleMemory) :
    (validateSummaryParams p mfu m).memory = m := by
  unfold validateSummaryParams
  simp only [validate_vendor_id_mem, validate_date_range_mem, Option.getD_some]
  (repeat' split) <;> rfl

/-- The compare branch leaves the store unchanged. -/
theorem validateCompareParams_mem (p : Params) (mfu : List String) (m : SimpleMemory) :
    (validateCompareParams p mfu m).memory = m := by
  unfold validateCompareParams
  simp only [validate_vendor_id_mem, validate_date_range_mem, Option.getD_some]
  (repeat' split) <;> rfl

/-- The trend branch leaves the store unchanged. -/
theorem validateTrendParams_mem (p : Params) (mfu : List String) (m : SimpleMemory) :
    (validateTrendParams p mfu m).memory = m := by
  unfold validateTrendParams
  simp only [validate_vendor_id_mem, validate_last_n_weeks_mem, Option.getD_some]
  (repeat' split) <;> rfl

/-- The top-performers branch leaves the store unchanged. -/
theorem validateTopParams_mem (p : Params) (mfu : List String) (m : SimpleMemory) :
    (validateTopParams p mfu m).memory = m := by
  unfold validateTopParams
  simp only [validate_limit_mem, validate_date_range_mem, Option.getD_some]
  (repeat' split) <;> rfl

/-- The failed-submissions branch leaves the store unchanged. -/
theorem validateFailedParams_mem (p : Params) (mfu : List String) (m : SimpleMemory) :
    (validateFailedParams p mfu m).memory = m := by
  unfold validateFailedParams
  simp only [validate_date_range_mem, Option.getD_some]
  (repeat' split) <;> rfl

/-- The whole pipeline leaves the store unchanged. -/
theorem apply_memory_and_validate_mem (p : Params) (t : String) (mfu : List String)
    (m : SimpleMemory) : (apply_memory_and_validate p t mfu m).memory = m := by
  unfold apply_memory_and_validate
  (repeat' split) <;>
    simp [validateSummaryParams_mem, validateCompareParams_mem, validateTrendParams_mem,
      validateTopParams_mem, validateFailedParams_mem]

/-- Names added to memory_fields_used by the summary branch. -/
theorem validateSummaryParams_mfu (p : Params) (mfu : List String) (m : SimpleMemory)
    (x : String) :
    x ∈ (validateSummaryParams p mfu m).mfu →
      x ∈ mfu ∨ x = "vendorId" ∨ x = "dateRange" ∨ x = "lastNWeeks" := by
  unfold validateSummaryParams
  intro hx
  dsimp only at hx
  split_ifs at hx <;> simp [List.mem_append] at hx <;> tauto

/-- Names added to memory_fields_used by the compare branch. -/
theorem validateCompareParams_mfu (p : Params) (mfu : List String) (m : SimpleMemory)
    (x : String) :
    x ∈ (validateCompareParams p mfu m).mfu →
      x ∈ mfu ∨ x = "vendorId" ∨ x = "dateRange" ∨ x = "lastNWeeks" := by
  unfold validateCompareParams
  intro hx
  dsimp only at hx
  split_ifs at hx <;> simp [List.mem_append] at hx <;> tauto

/-- Names added to memory_fields_used by the trend branch. -/
theorem validateTrendParams_mfu (p : Params) (mfu : List String) (m : SimpleMemory)
    (x : String) :
    x ∈ (validateTrendParams p mfu m).mfu →
      x ∈ mfu ∨ x = "vendorId" ∨ x = "dateRange" ∨ x = "lastNWeeks" := by
  unfold validateTrendParams
  intro hx
  dsimp only at hx
  split_ifs at hx <;> simp [List.mem_append] at hx <;> tauto

/-- Names added to memory_fields_used by the top-performers branch. -/
theorem validateTopParams_mfu (p : Params) (mfu : List String) (m : SimpleMemory)
    (x : String) :
    x ∈ (validateTopParams p mfu m).mfu →
      x ∈ mfu ∨ x = "vendorId" ∨ x = "dateRange" ∨ x = "lastNWeeks" := by
  unfold validateTopParams
  intro hx
  dsimp only at hx
  split_ifs at hx <;> simp [List.mem_append] at hx <;> tauto

/-- Names added to memory_fields_used by the failed-submissions branch. -/
theorem validateFailedParams_mfu (p : Params) (mfu : List String) (m : SimpleMemory)
    (x : String) :
    x ∈ (validateFailedParams p mfu m).mfu →
      x ∈ mfu ∨ x = "vendorId" ∨ x = "dateRange" ∨ x = "lastNWeeks" := by
  unfold validateFailedParams
  intro hx
  dsimp only at hx
  split_ifs at hx <;> simp [List.mem_append] at hx <;> tauto

/-- Names added to memory_fields_used by the dispatcher. -/
theorem apply_memory_and_validate_mfu (p : Params) (t : String) (mfu : List String)
    (m : SimpleMemory) (x : String) :
    x ∈ (apply_memory_and_validate p t mfu m).mfu →
      x ∈ mfu ∨ x = "vendorId" ∨ x = "dateRange" ∨ x = "lastNWeeks" := by
  unfold apply_memory_and_validate
  intro hx
  split_ifs at hx
  · exact validateSummaryParams_mfu p mfu m x hx
  · exact validateCompareParams_mfu p mfu m x hx
  · exact validateTrendParams_mfu p mfu m x hx
  · exact validateTopParams_mfu p mfu m x hx
  · exact validateFailedParams_mfu p mfu m x hx
  · exact Or.inl hx

/-- Updating a key makes it retrievable. -/
theorem aget_aset_same (l : List (String × Val)) (k : String) (v : Val) :
    aget (aset l k v) k = some v := by
  induction l with
  | nil => simp [aget, aset]
  | cons p rest ih =>
    obtain ⟨k0, v0⟩ := p
    by_cases h : k0 = k
    · simp [aset, h, aget]
    · simp [aset, h, aget, ih]

/-- Updating one key does not affect lookups of another. -/
theorem aget_aset_ne (l : List (String × Val)) (k k' : String) (v : Val) (h : k' ≠ k) :
    aget (aset l k v) k' = aget l k' := by
  induction l with
  | nil => simp [aget, aset, Ne.symm h]
  | cons p rest ih =>
    obtain ⟨k0, v0⟩ := p
    by_cases h0 : k0 = k
    · subst h0
      simp [aset, aget, Ne.symm h]
    · by_cases h1 : k0 = k'
      · subst h1
        simp [aset, h0, aget]
      · simp [aset, h0, aget, h1, ih]

/-- Keys after an update: the old key sequence, extended when the key is new. -/
theorem aset_map_fst (l : List (String × Val)) (k : String) (v : Val) :
    (aset l k v).map Prod.fst =
      if k ∈ l.map Prod.fst then l.map Prod.fst else l.map Prod.fst ++ [k] := by
  induction l with
  | nil => simp [aset]
  | cons p rest ih =>
    obtain ⟨k0, v0⟩ := p
    by_cases h : k0 = k
    · subst h
      simp [aset]
    · simp only [aset, if_neg h, List.map_cons, ih, List.mem_cons]
      by_cases hm : k ∈ rest.map Prod.fst <;>
        simp [hm, Ne.symm h]

/-- Updating preserves distinctness of keys: at most one current value per key. -/
theorem aset_keys_nodup (l : List (String × Val)) (k : String) (v : Val)
    (h : (l.map Prod.fst).Nodup) : ((aset l k v).map Prod.fst).Nodup := by
  rw [aset_map_fst]
  by_cases hm : k ∈ l.map Prod.fst
  · simpa [hm] using h
  · simp [hm, List.nodup_append, h]

/-- One set call appends to the history and keeps the last ten entries. -/
theorem set_memory_history (m : SimpleMemory) (k : String) (v : Val) :
    (m.set_memory k v).history =
      (m.history ++ [(k, v)]).drop (m.history.length + 1 - 10) := by
  unfold SimpleMemory.set_memory
  dsimp only
  by_cases h : (m.history ++ [(k, v)]).length > 10
  · rw [if_pos h]
    simp [List.length_append]
  · rw [if_neg h]
    simp only [List.length_append, List.length_singleton] at h
    have h0 : m.history.length + 1 - 10 = 0 := by omega
    simp [h0]

/-- After at least one set, the history is formed by appending every entry and
    dropping all but the last ten. -/
theorem setFold_history (kvs : List (String × Val)) (m : SimpleMemory) (hne : kvs ≠ []) :
    (setFold m kvs).history =
      (m.history ++ kvs).drop (m.history.length + kvs.length - 10) := by
  induction kvs generalizing m with
  | nil => exact absurd rfl hne
  | cons e rest ih =>
    obtain ⟨k, v⟩ := e
    by_cases hr : rest = []
    · subst hr
      simpa [setFold] using set_memory_history m k v
    · have hstep : setFold m ((k, v) :: rest) = setFold (m.set_memory k v) rest := rfl
      rw [hstep, ih _ hr, set_memory_history m k v]
      have hle : m.history.length + 1 - 10 ≤ (m.history ++ [(k, v)]).length := by
        rw [List.length_append, List.length_singleton]
        omega
      rw [← List.drop_append_of_le_length hle, List.drop_drop]
      have hlen : ((m.history ++ [(k, v)]).drop (m.history.length + 1 - 10)).length =
          m.history.length + 1 - (m.history.length + 1 - 10) := by
        rw [List.length_drop, List.length_append, List.length_singleton]
      rw [hlen]
      have harr : m.history.length + 1 - 10 +
          (m.history.length + 1 - (m.history.length + 1 - 10) + rest.length - 10) =
          m.history.length + ((k, v) :: rest).length - 10 := by
        simp only [List.length_cons]
        omega
      rw [harr]
      have hassoc : m.history ++ [(k, v)] ++ rest = m.history ++ (k, v) :: rest := by simp
      rw [hassoc]

/-- Every scanned candidate scores between 0.2 and 0.95. -/
theorem candidate_conf_bounds (ql : String) (c : Candidate) (hc : c ∈ candidatesFor ql) :
    1/5 ≤ c.confidence ∧ c.confidence ≤ 19/20 := by
  unfold candidatesFor at hc
  simp only [List.mem_flatMap, List.mem_filterMap] at hc
  obtain ⟨g, _, p, _, hif⟩ := hc
  by_cases h : containsSub p ql = true
  · rw [if_pos h] at hif
    cases hif
    unfold confidenceOf
    constructor
    · apply le_min
      · have h1 : (0 : ℚ) ≤ (p.length : ℚ) / (ql.length : ℚ) :=
          div_nonneg (Nat.cast_nonneg _) (Nat.cast_nonneg _)
        have h2 : (0 : ℚ) ≤ (g.priority : ℚ) * (1/10) := by positivity
        linarith
      · norm_num
    · exact min_le_right _ _
  · rw [if_neg h] at hif
    cases hif

/-- Every scanned candidate arises from one pattern of one group with the
    documented confidence formula. -/
theorem candidate_mem_shape (ql : String) (c : Candidate) (hc : c ∈ candidatesFor ql) :
    ∃ g ∈ MOCK_PATTERNS, c.pattern ∈ g.patterns ∧ containsSub c.pattern ql = true ∧
      c.tool = g.tool ∧
      c.confidence =
        min (7/10 + (c.pattern.length : ℚ) / (ql.length : ℚ) + (g.priority : ℚ) * (1/10))
          (19/20) := by
  unfold candidatesFor at hc
  simp only [List.mem_flatMap, List.mem_filterMap] at hc
  obtain ⟨g, hg, p, hp, hif⟩ := hc
  by_cases h : containsSub p ql = true
  · rw [if_pos h] at hif
    cases hif
    exact ⟨g, hg, hp, h, rfl, rfl⟩
  · rw [if_neg h] at hif
    cases hif

/-- Python max keeps the first of the maximal candidates: the chosen one splits
    the list so that everything before it scores strictly lower and nothing in
    the list scores higher. -/
theorem pickBest_first_max (x : Candidate) (xs : List Candidate) :
    ∃ pre post, x :: xs = pre ++ pickBest x xs :: post ∧
      (∀ c ∈ pre, c.confidence < (pickBest x xs).confidence) ∧
      (∀ c ∈ x :: xs, c.confidence ≤ (pickBest x xs).confidence) := by
  induction xs generalizing x with
  | nil =>
    refine ⟨[], [], rfl, by simp, ?_⟩
    intro c hc
    rcases List.mem_cons.mp hc with rfl | hc
    · exact le_refl _
    · cases hc
  | cons y ys ih =>
    by_cases hxy : x.confidence < y.confidence
    · have hb : pickBest x (y :: ys) = pickBest y ys := by
        simp [pickBest, List.foldl_cons, hxy]
      obtain ⟨pre, post, heq, hpre, hall⟩ := ih y
      have hyb : y.confidence ≤ (pickBest y ys).confidence :=
        hall y (List.mem_cons_self y ys)
      refine ⟨x :: pre, post, ?_, ?_, ?_⟩
      · rw [hb, List.cons_append, ← heq]
      · intro c hc
        rcases List.mem_cons.mp hc with rfl | hc
        · rw [hb]; exact lt_of_lt_of_le hxy hyb
        · rw [hb]; exact hpre c hc
      · intro c hc
        rcases List.mem_cons.mp hc with rfl | hc
        · rw [hb]; exact le_of_lt (lt_of_lt_of_le hxy hyb)
        · rw [hb]; exact hall c hc
    · have hb : pickBest x (y :: ys) = pickBest x ys := by
        simp [pickBest, List.foldl_cons, hxy]
      obtain ⟨pre, post, heq, hpre, hall⟩ := ih x
      have hyx : y.confidence ≤ x.confidence := le_of_not_lt hxy
      have hxb : x.confidence ≤ (pickBest x ys).confidence :=
        hall x (List.mem_cons_self x ys)
      cases pre with
      | nil =>
        simp only [List.nil_append] at heq
        injection heq with h1 h2
        refine ⟨[], y :: ys, by simp [hb, ← h1], by simp, ?_⟩
        intro c hc
        rcases List.mem_cons.mp hc with rfl | hc
        · rw [hb]; exact hxb
        · rcases List.mem_cons.mp hc with rfl | hc
          · rw [hb]; exact le_trans hyx hxb
          · rw [hb]
            exact hall c (List.mem_cons_of_mem x hc)
      | cons p0 pre1 =>
        simp only [List.cons_append] at heq
        have hp0 : p0 = x := ((List.cons.injEq _ _ _ _).mp heq).1.symm
        have hys : ys = pre1 ++ pickBest x ys :: post := ((List.cons.injEq _ _ _ _).mp heq).2
        refine ⟨x :: y :: pre1, post, ?_, ?_, ?_⟩
        · rw [hb, List.cons_append, List.cons_append, ← hys]
        · intro c hc
          rcases List.mem_cons.mp hc with rfl | hc
          · rw [hb]
            have := hpre p0 (List.mem_cons_self p0 pre1)
            rw [hp0] at this
            exact this
          · rcases List.mem_cons.mp hc with rfl | hc
            · rw [hb]
              have := hpre p0 (List.mem_cons_self p0 pre1)
              rw [hp0] at this
              exact lt_of_le_of_lt hyx this
            · rw [hb]
              exact hpre c (List.mem_cons_of_mem p0 hc)
        · intro c hc
          rcases List.mem_cons.mp hc with rfl | hc
          · rw [hb]; exact hxb
          · rcases List.mem_cons.mp hc with rfl | hc
            · rw [hb]; exact le_trans hyx hxb
            · rw [hb]
              exact hall c (List.mem_cons_of_mem x hc)

/-- When the incoming value is truthy, the date-range validator ignores the
    memory store entirely: its result is the same as with no store. -/
theorem validate_date_range_truthy_indep (v : Option Val) (om : Option SimpleMemory)
    (h : truthyOpt v = true) :
    (validate_date_range v om).1 = (validate_date_range v none).1 := by
  unfold validate_date_range
  simp only [h]
  (repeat' split) <;> rfl

/-- When the incoming value is truthy, the date-range validator never reports
    a memory provenance. -/
theorem validate_date_range_truthy_not_from_memory (v : Option Val)
    (om : Option SimpleMemory) (h : truthyOpt v = true) :
    (validate_date_range v om).1.from_memory = false := by
  unfold validate_date_range
  simp only [h]
  (repeat' split) <;> rfl

/-- Setting vendorId leaves the dateRange entry alone. -/
theorem aget_aset_vendor_date (l : Params) (v : Val) :
    aget (aset l "vendorId" v) "dateRange" = aget l "dateRange" :=
  aget_aset_ne l _ _ v (by decide)

/-- The date stage always stores a non-empty dateRange record. -/
theorem extractDateStage_truthy (now : Date) (q ql : String) (p : Params) :
    truthyOpt (aget (extractDateStage now q ql p) "dateRange") = true := by
  unfold extractDateStage
  split_ifs <;> simp [aget_aset_same, truthyOpt, Val.truthy]

/-- The default-vendorId stage does not touch the dateRange entry. -/
theorem extractVendorDefaultStage_date (t : String) (p : Params) :
    aget (extractVendorDefaultStage t p) "dateRange" = aget p "dateRange" := by
  unfold extractVendorDefaultStage
  split_ifs <;> simp [aget_aset_vendor_date]

/-- Parameter extraction always produces a non-empty dateRange record. -/
theorem extract_dateRange_truthy (now : Date) (q t : String) :
    truthyOpt (aget (extract_params_from_query now q t) "dateRange") = true := by
  unfold extract_params_from_query
  rw [extractVendorDefaultStage_date]
  exact extractDateStage_truthy now q (lowerStr q) _

/- ---------- Claim theorems ---------- -/

/-- C2 evidence: with VENDOR_3 stored and vendorA absent, the compare pipeline
    resolves vendorA from memory (from_memory is true) and succeeds, yet
    memory_fields_used stays empty — "vendorA" is never recorded. -/
theorem C2_vendorA_provenance_dropped :
    (validate_vendor_id (aget cmpParams "vendorA") (some m3)).1.from_memory = true ∧
    (validate_vendor_id (aget cmpParams "vendorA") (some m3)).1.valid = true ∧
    (apply_memory_and_validate cmpParams "compare_vendors" [] m3).result = .success ∧
    (apply_memory_and_validate cmpParams "compare_vendors" [] m3).mfu = [] := by
  with_unfolding_all decide

/-- C3 evidence: with VENDOR_3 stored, the query "show trend" selects
    get_vendor_trend but resolves vendorId to the extractor default VENDOR_1,
    not the remembered VENDOR_3, and records no memory usage. -/
theorem C3_trend_uses_default_not_memory :
    (process_query d0 mock_executor nullFmt "show trend" m3).1.tool = "get_vendor_trend" ∧
    aget (process_query d0 mock_executor nullFmt "show trend" m3).1.params "vendorId" =
      some (Val.s "VENDOR_1") ∧
    (process_query d0 mock_executor nullFmt "show trend" m3).1.memory_used = [] := by
  with_unfolding_all decide

/-- C1 counterexample: an executor that reports an error status does not stop
    the memory write — after the query the store is no longer empty. -/
theorem C1_counterexample :
    (process_query d0 errExec nullFmt "show trend" SimpleMemory.empty).1.result.status =
      "error" ∧
    (process_query d0 errExec nullFmt "show trend" SimpleMemory.empty).2 ≠
      SimpleMemory.empty := by
  with_unfolding_all decide

/-- C9 counterexample: the fallback parse of an unmatched query carries no
    dateRange at all, and with a stored range the memory-fallback branch of
    validate_date_range does run, recording "dateRange" as memory-sourced. -/
theorem C9_counterexample :
    (mock_llm_parse d0 "hello").params = [] ∧
    aget (mock_llm_parse d0 "hello").params "dateRange" = none ∧
    (validate_date_range (aget (mock_llm_parse d0 "hello").params "dateRange")
        (some m9)).1.from_memory = true ∧
    "dateRange" ∈ (process_query d0 mock_executor nullFmt "hello" m9).1.memory_used := by
  with_unfolding_all decide

/-- C10: every validator is read-only with respect to the memory store — the
    store each one returns (valid or invalid outcome alike) is exactly the
    store it received, so current values and history are unchanged. -/
theorem C10_validators_read_only :
    ∀ (v : Option Val) (om : Option SimpleMemory),
      (validate_vendor_id v om).2 = om ∧
      (validate_date_range v om).2 = om ∧
      (validate_limit v om).2 = om ∧
      (validate_last_n_weeks v om).2 = om :=
  fun v om =>
    ⟨validate_vendor_id_mem v om, validate_date_range_mem v om,
     validate_limit_mem v om, validate_last_n_weeks_mem v om⟩

/-- C8: the memory history is a FIFO log bounded at ten entries — every set
    appends one entry and keeps the most recent ten, the store keeps exactly
    one current value per key, and any fifteen consecutive sets leave
    historyCount at ten with exactly the ten most recent entries in order. -/
theorem C8_history_bounded_fifo :
    (∀ (m : SimpleMemory) (k : String) (v : Val),
        (m.set_memory k v).history =
          (m.history ++ [(k, v)]).drop (m.history.length + 1 - 10) ∧
        (m.set_memory k v).history.length = min (m.history.length + 1) 10 ∧
        (m.set_memory k v).get_memory k = some v ∧
        (∀ k', k' ≠ k → (m.set_memory k v).get_memory k' = m.get_memory k') ∧
        ((m.store.map Prod.fst).Nodup → ((m.set_memory k v).store.map Prod.fst).Nodup)) ∧
    (∀ (m : SimpleMemory) (kvs : List (String × Val)), kvs.length = 15 →
        (setFold m kvs).get_memory_summary.history_count = 10 ∧
        (setFold m kvs).history = kvs.drop 5) := by
  constructor
  · intro m k v
    refine ⟨set_memory_history m k v, ?_, ?_, ?_, ?_⟩
    · rw [set_memory_history m k v, List.length_drop, List.length_append,
        List.length_singleton]
      omega
    · unfold SimpleMemory.get_memory SimpleMemory.set_memory
      exact aget_aset_same m.store k v
    · intro k' hk
      unfold SimpleMemory.get_memory SimpleMemory.set_memory
      exact aget_aset_ne m.store k k' v hk
    · intro h
      unfold SimpleMemory.set_memory
      exact aset_keys_nodup m.store k v h
  · intro m kvs hlen
    have hne : kvs ≠ [] := by
      intro h
      rw [h] at hlen
      cases hlen
    have hist := setFold_history kvs m hne
    rw [hlen] at hist
    have harith : m.history.length + 15 - 10 = m.history.length + 5 := by omega
    rw [harith, List.drop_append] at hist
    constructor
    · unfold SimpleMemory.get_memory_summary
      rw [hist, List.length_drop, hlen]
    · exact hist

/-- C8 witness: fifteen concrete sets from the empty store leave exactly the
    ten most recent entries and a history count of ten. -/
theorem C8_history_bounded_fifo_witness :
    (List.replicate 15 (("k", Val.i 1) : String × Val)).length = 15 ∧
    (SimpleMemory.empty.set_memory "a" (Val.i 2)).get_memory "b" =
      SimpleMemory.empty.get_memory "b" ∧
    (setFold SimpleMemory.empty (List.replicate 15 ("k", Val.i 1))).get_memory_summary.history_count = 10 ∧
    (setFold SimpleMemory.empty (List.replicate 15 ("k", Val.i 1))).history =
      (List.replicate 15 (("k", Val.i 1) : String × Val)).drop 5 := by
  refine ⟨by decide, ?_, ?_, ?_⟩
  · exact ((C8_history_bounded_fifo.1 SimpleMemory.empty "a" (Val.i 2)).2.2.2.1 "b" (by decide))
  · exact (C8_history_bounded_fifo.2 SimpleMemory.empty _ (by decide)).1
  · exact (C8_history_bounded_fifo.2 SimpleMemory.empty _ (by decide)).2

/-- C1 (amended): on any validation failure process_query returns without
    touching the store — the memory after the call is the memory before it.
    (After validation passes, the store is updated regardless of the
    executor's status; see the counterexample.) -/
theorem C1_store_unchanged_on_validation_failure :
    ∀ (now : Date) (ex : String → Params → ExecResult)
      (fd : String → ExecResult → String) (q : String) (m : SimpleMemory) (e : String),
      (apply_memory_and_validate (mock_llm_parse now q).params
          (mock_llm_parse now q).tool [] m).result = .error e →
      (process_query now ex fd q m).2 = m := by
  intro now ex fd q m e he
  unfold process_query
  dsimp only
  simp only [he]
  exact apply_memory_and_validate_mem _ _ _ _

/-- C1 witness: a query whose validation fails (empty store, fallback parse
    with no vendor) leaves the empty store empty. -/
theorem C1_store_unchanged_witness :
    (apply_memory_and_validate (mock_llm_parse d0 "hello").params
        (mock_llm_parse d0 "hello").tool [] SimpleMemory.empty).result =
      .error "VendorId is required. Please specify a vendor or run a query with a vendor first." ∧
    (process_query d0 mock_executor nullFmt "hello" SimpleMemory.empty).2 =
      SimpleMemory.empty :=
  ⟨by with_unfolding_all decide,
   C1_store_unchanged_on_validation_failure d0 mock_executor nullFmt "hello"
     SimpleMemory.empty
     "VendorId is required. Please specify a vendor or run a query with a vendor first."
     (by with_unfolding_all decide)⟩

/-- C9 (amended): parameter extraction always produces a dateRange (defaulting
    to the trailing 90 days), so whenever extraction runs the dateRange handed
    to validate_date_range is present and its memory-fallback branch is not
    taken.  (The fallback parse of an unmatched query bypasses extraction with
    empty params, so the branch is reachable there; see the counterexample.) -/
theorem C9_extraction_always_sets_dateRange :
    ∀ (now : Date) (q t : String),
      truthyOpt (aget (extract_params_from_query now q t) "dateRange") = true ∧
      ∀ om : Option SimpleMemory,
        (validate_date_range (aget (extract_params_from_query now q t) "dateRange") om).1 =
          (validate_date_range (aget (extract_params_from_query now q t) "dateRange") none).1 ∧
        (validate_date_range (aget (extract_params_from_query now q t) "dateRange")
            om).1.from_memory = false :=
  fun now q t =>
    ⟨extract_dateRange_truthy now q t, fun om =>
      ⟨validate_date_range_truthy_indep _ om (extract_dateRange_truthy now q t),
       validate_date_range_truthy_not_from_memory _ om (extract_dateRange_truthy now q t)⟩⟩

/-- C4: vendorB never resolves from memory — the validator invoked for vendorB
    carries no store, so it never reports memory provenance; the pipeline never
    records "vendorB" as memory-sourced for any tool, params, or store; and
    with vendorB absent the compare branch fails with the required-vendor error
    for every store, even one holding a vendorId. -/
theorem C4_vendorB_never_from_memory :
    (∀ v : Option Val, (validate_vendor_id v none).1.from_memory = false) ∧
    (∀ (t : String) (p : Params) (m : SimpleMemory),
        "vendorB" ∉ (apply_memory_and_validate p t [] m).mfu) ∧
    (∀ (p : Params) (mfu : List String) (m : SimpleMemory),
        (validate_vendor_id (aget p "vendorA") (some m)).1.valid = true →
        aget p "vendorB" = none →
        apply_memory_and_validate p "compare_vendors" mfu m =
          { params := aset p "vendorA" (validate_vendor_id (aget p "vendorA") (some m)).1.value,
            result := .error
              "VendorB: VendorId is required. Please specify a vendor or run a query with a vendor first.",
            mfu := mfu,
            memory := m }) := by
  refine ⟨?_, ?_, ?_⟩
  · intro v
    unfold validate_vendor_id
    cases h : truthyOpt v <;> simp only [h] <;> (repeat' split) <;> rfl
  · intro t p m hx
    rcases apply_memory_and_validate_mfu p t [] m "vendorB" hx with h | h | h | h
    · cases h
    · exact absurd h (by decide)
    · exact absurd h (by decide)
    · exact absurd h (by decide)
  · intro p mfu m hva hvb
    unfold apply_memory_and_validate
    rw [if_neg (by decide), if_pos rfl]
    unfold validateCompareParams
    dsimp only
    have hbv : aget (aset p "vendorA" (validate_vendor_id (aget p "vendorA") (some m)).1.value)
        "vendorB" = none := by
      rw [aget_aset_ne p "vendorA" "vendorB" _ (by decide)]
      exact hvb
    have hreq : validate_vendor_id none none =
        ({ valid := false,
           error := "VendorId is required. Please specify a vendor or run a query with a vendor first." },
         none) := rfl
    simp only [validate_vendor_id_mem, Option.getD_some, hva, hbv, hreq]
    rfl

/-- C4 witness: with VENDOR_1 supplied as vendorA, vendorB absent, and
    VENDOR_3 stored in memory, the compare pipeline still rejects vendorB. -/
theorem C4_vendorB_never_from_memory_witness :
    (validate_vendor_id (aget [("vendorA", Val.s "VENDOR_1")] "vendorA") (some m3)).1.valid =
      true ∧
    aget [("vendorA", Val.s "VENDOR_1")] "vendorB" = none ∧
    apply_memory_and_validate [("vendorA", Val.s "VENDOR_1")] "compare_vendors" [] m3 =
      { params := aset [("vendorA", Val.s "VENDOR_1")] "vendorA"
          (validate_vendor_id (aget [("vendorA", Val.s "VENDOR_1")] "vendorA")
            (some m3)).1.value,
        result := .error
          "VendorB: VendorId is required. Please specify a vendor or run a query with a vendor first.",
        mfu := [],
        memory := m3 } :=
  ⟨by decide, by decide,
   C4_vendorB_never_from_memory.2.2 [("vendorA", Val.s "VENDOR_1")] [] m3
     (by decide) (by decide)⟩

/-- C5: the pipeline is fail-fast — for each tool, when the first validator in
    its fixed sequence rejects, the pipeline returns exactly that validator's
    error with params, provenance list, and store untouched (so no later
    validator contributes anything); and on any validation error process_query
    is independent of the executor and formatter (the tool is never invoked)
    and returns the error as the final, failure-marked response. -/
theorem C5_pipeline_fail_fast :
    (∀ (p : Params) (mfu : List String) (m : SimpleMemory),
        (validate_vendor_id (aget p "vendorId") (some m)).1.valid = false →
        apply_memory_and_validate p "get_vendor_summary" mfu m =
          { params := p,
            result := .error (validate_vendor_id (aget p "vendorId") (some m)).1.error,
            mfu := mfu, memory := m }) ∧
    (∀ (p : Params) (mfu : List String) (m : SimpleMemory),
        (validate_vendor_id (aget p "vendorId") (some m)).1.valid = false →
        apply_memory_and_validate p "get_vendor_trend" mfu m =
          { params := p,
            result := .error (validate_vendor_id (aget p "vendorId") (some m)).1.error,
            mfu := mfu, memory := m }) ∧
    (∀ (p : Params) (mfu : List String) (m : SimpleMemory),
        (validate_vendor_id (aget p "vendorA") (some m)).1.valid = false →
        apply_memory_and_validate p "compare_vendors" mfu m =
          { params := p,
            result := .error
              ("VendorA: " ++ (validate_vendor_id (aget p "vendorA") (some m)).1.error),
            mfu := mfu, memory := m }) ∧
    (∀ (p : Params) (mfu : List String) (m : SimpleMemory),
        (validate_limit (aget p "limit") (some m)).1.valid = false →
        apply_memory_and_validate p "vendor_top_performers" mfu m =
          { params := p,
            result := .error (validate_limit (aget p "limit") (some m)).1.error,
            mfu := mfu, memory := m }) ∧
    (∀ (p : Params) (mfu : List String) (m : SimpleMemory),
        (validate_date_range (aget p "dateRange") (some m)).1.valid = false →
        apply_memory_and_validate p "vendor_failed_submissions" mfu m =
          { params := p,
            result := .error (validate_date_range (aget p "dateRange") (some m)).1.error,
            mfu := mfu, memory := m }) ∧
    (∀ (now : Date) (q : String) (m : SimpleMemory) (e : String)
        (ex1 ex2 : String → Params → ExecResult)
        (fd1 fd2 : String → ExecResult → String),
        (apply_memory_and_validate (mock_llm_parse now q).params
            (mock_llm_parse now q).tool [] m).result = .error e →
        process_query now ex1 fd1 q m = process_query now ex2 fd2 q m ∧
        (process_query now ex1 fd1 q m).1.formatted = "❌ " ++ e ∧
        (process_query now ex1 fd1 q m).1.result = { status := "error", error := e }) := by
  refine ⟨?_, ?_, ?_, ?_, ?_, ?_⟩
  · intro p mfu m h
    unfold apply_memory_and_validate
    rw [if_pos rfl]
    unfold validateSummaryParams
    dsimp only
    simp [h, validate_vendor_id_mem]
  · intro p mfu m h
    unfold apply_memory_and_validate
    rw [if_neg (by decide), if_neg (by decide), if_pos rfl]
    unfold validateTrendParams
    dsimp only
    simp [h, validate_vendor_id_mem]
  · intro p mfu m h
    unfold apply_memory_and_validate
    rw [if_neg (by decide), if_pos rfl]
    unfold validateCompareParams
    dsimp only
    simp [h, validate_vendor_id_mem]
  · intro p mfu m h
    unfold apply_memory_and_validate
    rw [if_neg (by decide), if_neg (by decide), if_neg (by decide), if_pos rfl]
    unfold validateTopParams
    dsimp only
    simp [h, validate_limit_mem]
  · intro p mfu m h
    unfold apply_memory_and_validate
    rw [if_neg (by decide), if_neg (by decide), if_neg (by decide), if_neg (by decide),
      if_pos rfl]
    unfold validateFailedParams
    dsimp only
    simp [h, validate_date_range_mem]
  · intro now q m e ex1 ex2 fd1 fd2 he
    unfold process_query
    dsimp only
    rw [he]
    exact ⟨rfl, rfl, rfl⟩

/-- C5 witness: with empty params the summary pipeline stops at the vendorId
    validator, and the unmatched query "hello" on an empty store yields the
    failure-marked response untouched by the executor choice. -/
theorem C5_pipeline_fail_fast_witness :
    (validate_vendor_id (aget ([] : Params) "vendorId") (some SimpleMemory.empty)).1.valid =
      false ∧
    apply_memory_and_validate [] "get_vendor_summary" [] SimpleMemory.empty =
      { params := [],
        result := .error
          (validate_vendor_id (aget ([] : Params) "vendorId")
            (some SimpleMemory.empty)).1.error,
        mfu := [], memory := SimpleMemory.empty } ∧
    process_query d0 mock_executor nullFmt "hello" SimpleMemory.empty =
      process_query d0 errExec nullFmt "hello" SimpleMemory.empty ∧
    (process_query d0 mock_executor nullFmt "hello" SimpleMemory.empty).1.formatted =
      "❌ VendorId is required. Please specify a vendor or run a query with a vendor first." :=
  ⟨by decide,
   C5_pipeline_fail_fast.1 [] [] SimpleMemory.empty (by decide),
   (C5_pipeline_fail_fast.2.2.2.2.2 d0 "hello" SimpleMemory.empty
      "VendorId is required. Please specify a vendor or run a query with a vendor first."
      mock_executor errExec nullFmt nullFmt (by with_unfolding_all decide)).1,
   (C5_pipeline_fail_fast.2.2.2.2.2 d0 "hello" SimpleMemory.empty
      "VendorId is required. Please specify a vendor or run a query with a vendor first."
      mock_executor errExec nullFmt nullFmt (by with_unfolding_all decide)).2.1⟩

/-- Unfolding of mock_llm_parse when no pattern matches. -/
theorem mock_llm_parse_nil (now : Date) (q : String)
    (hc : candidatesFor (lowerStr q) = []) :
    mock_llm_parse now q =
      { tool := "get_vendor_summary", params := [], confidence := 1/5,
        matched_pattern := "fallback" } := by
  unfold mock_llm_parse
  dsimp only
  rw [hc]

/-- Unfolding of mock_llm_parse when the scan finds candidates. -/
theorem mock_llm_parse_cons (now : Date) (q : String) (c : Candidate)
    (cs : List Candidate) (hc : candidatesFor (lowerStr q) = c :: cs) :
    mock_llm_parse now q =
      { tool := (pickBest c cs).tool,
        params := extract_params_from_query now q (pickBest c cs).tool,
        confidence := (pickBest c cs).confidence,
        matched_pattern := (pickBest c cs).pattern } := by
  unfold mock_llm_parse
  dsimp only
  rw [hc]

/-- C6: every substring match is scored min(0.7 + len(pattern)/len(query) +
    priority*0.1, 0.95); the scan's winner is the first candidate of maximal
    confidence in table order; an unmatched query falls back to
    get_vendor_summary at confidence 0.2 with pattern "fallback"; and every
    returned confidence lies in [0.2, 0.95]. -/
theorem C6_intent_resolver (now : Date) (query : String) :
    (1/5 ≤ (mock_llm_parse now query).confidence ∧
      (mock_llm_parse now query).confidence ≤ 19/20) ∧
    (candidatesFor (lowerStr query) = [] →
      mock_llm_parse now query =
        { tool := "get_vendor_summary", params := [], confidence := 1/5,
          matched_pattern := "fallback" }) ∧
    (∀ c ∈ candidatesFor (lowerStr query), ∃ g ∈ MOCK_PATTERNS,
        c.pattern ∈ g.patterns ∧ containsSub c.pattern (lowerStr query) = true ∧
        c.tool = g.tool ∧
        c.confidence =
          min (7/10 + (c.pattern.length : ℚ) / ((lowerStr query).length : ℚ)
            + (g.priority : ℚ) * (1/10)) (19/20)) ∧
    (∀ (c : Candidate) (cs : List Candidate), candidatesFor (lowerStr query) = c :: cs →
      ∃ pre post,
        c :: cs = pre ++ (⟨(mock_llm_parse now query).tool,
          (mock_llm_parse now query).matched_pattern,
          (mock_llm_parse now query).confidence⟩ : Candidate) :: post ∧
        (∀ x ∈ pre, x.confidence < (mock_llm_parse now query).confidence) ∧
        (∀ x ∈ c :: cs, x.confidence ≤ (mock_llm_parse now query).confidence)) := by
  refine ⟨?_, ?_, ?_, ?_⟩
  · cases hc : candidatesFor (lowerStr query) with
    | nil =>
      rw [mock_llm_parse_nil now query hc]
      constructor <;> norm_num
    | cons c cs =>
      rw [mock_llm_parse_cons now query c cs hc]
      obtain ⟨pre, post, heq, _, _⟩ := pickBest_first_max c cs
      have hmem : pickBest c cs ∈ candidatesFor (lowerStr query) := by
        rw [hc, heq]
        exact List.mem_append_right _ (List.mem_cons_self _ _)
      exact candidate_conf_bounds _ _ hmem
  · intro hc
    exact mock_llm_parse_nil now query hc
  · intro c hc
    exact candidate_mem_shape _ c hc
  · intro c cs hc
    rw [mock_llm_parse_cons now query c cs hc]
    obtain ⟨pre, post, heq, hpre, hall⟩ := pickBest_first_max c cs
    exact ⟨pre, post, heq, hpre, hall⟩

/-- C6 witness: the unmatched query "hello" falls back as specified, and the
    matched query "show trend" selects its single candidate, whose confidence
    obeys the bounds. -/
theorem C6_intent_resolver_witness :
    mock_llm_parse d0 "hello" =
      { tool := "get_vendor_summary", params := [], confidence := 1/5,
        matched_pattern := "fallback" } ∧
    (1/5 ≤ (mock_llm_parse d0 "show trend").confidence ∧
      (mock_llm_parse d0 "show trend").confidence ≤ 19/20) ∧
    (∃ g ∈ MOCK_PATTERNS,
        (⟨"get_vendor_trend", "show trend",
            confidenceOf "show trend" (lowerStr "show trend") 2⟩ : Candidate).pattern ∈
          g.patterns ∧
        containsSub "show trend" (lowerStr "show trend") = true ∧
        ("get_vendor_trend" : String) = g.tool ∧
        confidenceOf "show trend" (lowerStr "show trend") 2 =
          min (7/10 + (("show trend".length : ℚ)) / (((lowerStr "show trend").length : ℚ))
            + ((g.priority : ℚ)) * (1/10)) (19/20)) ∧
    (∃ pre post,
        [(⟨"get_vendor_trend", "show trend",
            confidenceOf "show trend" (lowerStr "show trend") 2⟩ : Candidate)] =
          pre ++ (⟨(mock_llm_parse d0 "show trend").tool,
            (mock_llm_parse d0 "show trend").matched_pattern,
            (mock_llm_parse d0 "show trend").confidence⟩ : Candidate) :: post ∧
        (∀ x ∈ pre, x.confidence < (mock_llm_parse d0 "show trend").confidence) ∧
        (∀ x ∈ [(⟨"get_vendor_trend", "show trend",
            confidenceOf "show trend" (lowerStr "show trend") 2⟩ : Candidate)],
          x.confidence ≤ (mock_llm_parse d0 "show trend").confidence)) := by
  refine ⟨(C6_intent_resolver d0 "hello").2.1 (by with_unfolding_all decide),
    (C6_intent_resolver d0 "show trend").1, ?_, ?_⟩
  · exact (C6_intent_resolver d0 "show trend").2.2.1 _ (by with_unfolding_all decide)
  · exact (C6_intent_resolver d0 "show trend").2.2.2 _ [] (by with_unfolding_all decide)

/-- A non-empty date-range record is truthy. -/
theorem truthy_dr (entries : List (String × String)) (h : entries ≠ []) :
    truthyOpt (some (Val.dr entries)) = true := by
  cases entries with
  | nil => exact absurd rfl h
  | cons a l => rfl

/-- A successful key lookup means the record is non-empty. -/
theorem lookupStr_some_ne_nil (entries : List (String × String)) (k s : String)
    (h : lookupStr entries k = some s) : entries ≠ [] := by
  intro hn
  subst hn
  cases h

/-- C7: validate_date_range applies its checks in the fixed order
    present, record, keys, parse, order, 365-day span, the first failing check
    choosing the single error message; a span above 365 days is always
    rejected, and a range whose end equals its start is accepted. -/
theorem C7_date_range_check_order :
    ((validate_date_range none none).1.valid = false ∧
      (validate_date_range none none).1.error =
        "DateRange is required. Please specify a date range (e.g., 'in 2024', 'last month')." ∧
      (validate_date_range (some (Val.dr [])) none).1.error =
        "DateRange is required. Please specify a date range (e.g., 'in 2024', 'last month').") ∧
    (∀ str : String, str ≠ "" →
      (validate_date_range (some (Val.s str)) none).1 =
        { valid := false,
          error := "DateRange must be a dictionary with 'start' and 'end'" }) ∧
    (∀ n : Int, n ≠ 0 →
      (validate_date_range (some (Val.i n)) none).1 =
        { valid := false,
          error := "DateRange must be a dictionary with 'start' and 'end'" }) ∧
    (∀ entries, entries ≠ [] →
      (lookupStr entries "start" = none ∨ lookupStr entries "end" = none) →
      (validate_date_range (some (Val.dr entries)) none).1 =
        { valid := false, error := "DateRange must contain 'start' and 'end' keys" }) ∧
    (∀ entries st en, lookupStr entries "start" = some st →
      lookupStr entries "end" = some en →
      (parseDate st = none ∨ parseDate en = none) →
      (validate_date_range (some (Val.dr entries)) none).1 =
        { valid := false, error := "Dates must be in YYYY-MM-DD format" }) ∧
    (∀ entries st en sd ed, lookupStr entries "start" = some st →
      lookupStr entries "end" = some en → parseDate st = some sd →
      parseDate en = some ed → toOrd ed < toOrd sd →
      (validate_date_range (some (Val.dr entries)) none).1 =
        { valid := false, error := "End date must be after start date" }) ∧
    (∀ entries st en sd ed, lookupStr entries "start" = some st →
      lookupStr entries "end" = some en → parseDate st = some sd →
      parseDate en = some ed → ¬ toOrd ed < toOrd sd → toOrd ed - toOrd sd > 365 →
      (validate_date_range (some (Val.dr entries)) none).1 =
        { valid := false,
          error := "Please specify a date range up to 1 year only. Your range spans "
            ++ toString (toOrd ed - toOrd sd) ++ " days." }) ∧
    (∀ entries st en sd ed, lookupStr entries "start" = some st →
      lookupStr entries "end" = some en → parseDate st = some sd →
      parseDate en = some ed → ¬ toOrd ed < toOrd sd → toOrd ed - toOrd sd ≤ 365 →
      (validate_date_range (some (Val.dr entries)) none).1 =
        { valid := true, value := Val.dr entries, from_memory := false }) ∧
    (∀ entries st sd, lookupStr entries "start" = some st →
      lookupStr entries "end" = some st → parseDate st = some sd →
      (validate_date_range (some (Val.dr entries)) none).1.valid = true) := by
  refine ⟨⟨by decide, by decide, by decide⟩, ?_, ?_, ?_, ?_, ?_, ?_, ?_, ?_⟩
  · intro str h
    have ht : truthyOpt (some (Val.s str)) = true := by
      simp [truthyOpt, Val.truthy, h]
    unfold validate_date_range
    simp [ht]
  · intro n h
    have ht : truthyOpt (some (Val.i n)) = true := by
      simp [truthyOpt, Val.truthy, h]
    unfold validate_date_range
    simp [ht]
  · intro entries hne hk
    unfold validate_date_range
    simp only [truthy_dr entries hne]
    rcases hk with hk | hk <;>
      cases h1 : lookupStr entries "start" <;> cases h2 : lookupStr entries "end" <;>
        simp_all
  · intro entries st en hst hen hp
    have hne := lookupStr_some_ne_nil entries "start" st hst
    unfold validate_date_range
    simp only [truthy_dr entries hne, hst, hen]
    rcases hp with hp | hp <;>
      cases h1 : parseDate st <;> cases h2 : parseDate en <;> simp_all
  · intro entries st en sd ed hst hen hps hpe hlt
    have hne := lookupStr_some_ne_nil entries "start" st hst
    unfold validate_date_range
    simp [truthy_dr entries hne, hst, hen, hps, hpe, hlt]
  · intro entries st en sd ed hst hen hps hpe hnlt hgt
    have hne := lookupStr_some_ne_nil entries "start" st hst
    unfold validate_date_range
    simp [truthy_dr entries hne, hst, hen, hps, hpe, hnlt, hgt]
  · intro entries st en sd ed hst hen hps hpe hnlt hle
    have hne := lookupStr_some_ne_nil entries "start" st hst
    have hngt : ¬ toOrd ed - toOrd sd > 365 := by omega
    unfold validate_date_range
    simp [truthy_dr entries hne, hst, hen, hps, hpe, hnlt, hngt]
  · intro entries st sd hst hen hps
    have hne := lookupStr_some_ne_nil entries "start" st hst
    have hnlt : ¬ toOrd sd < toOrd sd := lt_irrefl _
    have hngt : ¬ toOrd sd - toOrd sd > 365 := by omega
    unfold validate_date_range
    simp [truthy_dr entries hne, hst, hen, hps, hnlt, hngt]

/-- C7 witness: the 517-day range from 2023-01-01 to 2024-06-01 is rejected
    with the span message, and a range whose end equals its start is valid. -/
theorem C7_date_range_check_order_witness :
    (validate_date_range
        (some (Val.dr [("start", "2023-01-01"), ("end", "2024-06-01")])) none).1 =
      { valid := false,
        error := "Please specify a date range up to 1 year only. Your range spans "
          ++ toString (toOrd ⟨2024, 6, 1⟩ - toOrd ⟨2023, 1, 1⟩) ++ " days." } ∧
    (validate_date_range
        (some (Val.dr [("start", "2024-02-29"), ("end", "2024-02-29")])) none).1.valid =
      true :=
  ⟨C7_date_range_check_order.2.2.2.2.2.2.1 _ "2023-01-01" "2024-06-01"
      ⟨2023, 1, 1⟩ ⟨2024, 6, 1⟩ (by decide) (by decide) (by decide) (by decide)
      (by decide) (by decide),
   C7_date_range_check_order.2.2.2.2.2.2.2.2 _ "2024-02-29" ⟨2024, 2, 29⟩
      (by decide) (by decide) (by decide)⟩
